import Mathlib

/-!
Verification of the RemakeSoF game-launcher frontend (TypeScript sources)
against its natural-language specification.

The embedding models the Zustand store `useLauncherStore` (src/services/store.ts)
and the service layer (`AuthService`, `GameService`, `SettingsService`).
Asynchronous actions are embedded as pure big-step functions: the results of the
awaited service calls (fetch outcomes, parsed JSON bodies, progress callbacks)
are passed in as explicit environment parameters, and each action returns the
resulting store state together with the ordered list of HTTP requests it issued.

Conventions:
- A JavaScript `throw new Error(msg)` is modelled as the string `"Error: " ++ msg`
  (the value of `error.toString()` on such an error), carried in `Except.error`.
- `localStorage.getItem` is an environment parameter of type `Option String`;
  JS string interpolation of `null` yields the text `"null"`.
- The constant `Content-Type: application/json` header is elided from requests;
  `HttpRequest.body` records the JSON body as its field/value pairs.
- `progressPercent` and `speedMbps` are floating point in the source but are
  never computed on by the store (it writes the literal 0 and passes callback
  values through unchanged), so they are embedded as naturals.
-/

/-- The `LauncherStatus` enum of src/types/index.ts. -/
inductive LauncherStatus where
  | IDLE
  | CHECKING_VERSION
  | DOWNLOADING
  | INSTALLING
  | READY
  | UPDATING
  | PLAYING
  | ERROR
  deriving DecidableEq, Repr

/-- Structure `AuthResponse` of src/types/index.ts. -/
structure AuthResponse where
  message : String
  playerId : String
  username : String
  token : String
  selectedSkinName : Option String
  deriving DecidableEq, Repr

/-- Structure `GameVersion` of src/types/index.ts. Note the `checksum` field. -/
structure GameVersion where
  version : String
  releaseDate : String
  downloadUrl : String
  fileSize : Nat
  checksum : String
  deriving DecidableEq, Repr

/-- Structure `DownloadProgress` of src/types/index.ts. -/
structure DownloadProgress where
  downloadedBytes : Nat
  totalBytes : Nat
  progressPercent : Nat
  speedMbps : Nat
  deriving DecidableEq, Repr

/-- Structure `LauncherSettings` of src/types/index.ts. -/
structure LauncherSettings where
  serverUrl : String
  installPath : String
  autoUpdate : Bool
  rememberMe : Bool
  language : String
  deriving DecidableEq, Repr

/-- An HTTP request issued by a service, as observable effect.
The constant json content-type header is elided; `body` lists the JSON
fields of the request body. -/
structure HttpRequest where
  method : String
  url : String
  authorization : Option String
  body : List (String × String)
  deriving DecidableEq, Repr

/-- The part of a `fetch` response the services inspect. -/
structure HttpResponse where
  ok : Bool
  status : Nat
  deriving DecidableEq, Repr

/-- Outcome of one `fetch` (plus, when applicable, `response.json()`):
either the promise rejected with an error whose `toString()` is `msg`,
or it resolved with a response and a parsed body of type `α`. -/
inductive FetchResult (α : Type) where
  | rejected (msg : String)
  | resolved (resp : HttpResponse) (body : α)
  deriving DecidableEq, Repr

/-- Constant `API_URL = 'http://localhost:8000'` shared by every service. -/
def API_URL : String := "http://localhost:8000"

/-- JS string interpolation of a possibly-null string (`null` prints as "null"). -/
def jsShow (o : Option String) : String :=
  match o with
  | some s => s
  | none => "null"

namespace AuthService

/-- The request issued by `AuthService.login`. -/
def loginRequest (username password : String) : HttpRequest :=
  { method := "POST"
    url := API_URL ++ "/api/loginUser"
    authorization := none
    body := [("username", username), ("email", username), ("password", password)] }

/-- Embeds `AuthService.login` (src/services/authService.ts lines 6-24): POSTs the
credentials; a non-ok response or a rejected fetch is wrapped into a
`Login failed:` error. Returns the issued request and the outcome. -/
def login (username password : String) (r : FetchResult AuthResponse) :
    HttpRequest × Except String AuthResponse :=
  (loginRequest username password,
   match r with
   | .rejected msg => .error ("Error: Login failed: " ++ msg)
   | .resolved resp body =>
       if resp.ok then .ok body
       else .error ("Error: Login failed: Error: HTTP error! status: " ++
         toString resp.status))

/-- The request issued by `AuthService.logout`. -/
def logoutRequest (storedToken : Option String) : HttpRequest :=
  { method := "POST"
    url := API_URL ++ "/api/logoutUser"
    authorization := some ("Bearer " ++ jsShow storedToken)
    body := [] }

/-- Embeds `AuthService.logout` (src/services/authService.ts lines 26-39): POSTs with
the locally stored token. The response status is NOT checked (`response.ok`
is never read), so only a rejected fetch produces an error. -/
def logout (storedToken : Option String) (r : FetchResult Unit) :
    HttpRequest × Except String Unit :=
  (logoutRequest storedToken,
   match r with
   | .rejected msg => .error ("Error: Logout failed: " ++ msg)
   | .resolved _ _ => .ok ())

end AuthService

namespace GameService

/-- The request issued by `GameService.checkVersion`. -/
def checkVersionRequest : HttpRequest :=
  { method := "GET"
    url := API_URL ++ "/api/game/version"
    authorization := none
    body := [] }

/-- Embeds `GameService.checkVersion` (gameService.ts lines 6-23): GETs the version
descriptor; non-ok or rejected is wrapped into a `Failed to check version:`
error. -/
def checkVersion (r : FetchResult GameVersion) :
    HttpRequest × Except String GameVersion :=
  (checkVersionRequest,
   match r with
   | .rejected msg => .error ("Error: Failed to check version: " ++ msg)
   | .resolved resp body =>
       if resp.ok then .ok body
       else .error ("Error: Failed to check version: Error: HTTP error! status: " ++
         toString resp.status))

/-- The request issued by `GameService.downloadGame`. -/
def downloadGameRequest (version installPath : String) (storedToken : Option String) :
    HttpRequest :=
  { method := "POST"
    url := API_URL ++ "/api/game/download"
    authorization := some ("Bearer " ++ jsShow storedToken)
    body := [("version", version), ("installPath", installPath)] }

/-- Embeds `GameService.downloadGame` (gameService.ts lines 25-51): POSTs the version
and install path with the locally stored token. The `onProgress` callback is
never invoked by this function (progress tracking is a TODO in the source);
it resolves once the response body is read. Non-ok or rejected is wrapped
into a `Failed to download game:` error. -/
def downloadGame (version installPath : String) (storedToken : Option String)
    (r : FetchResult Unit) : HttpRequest × Except String Unit :=
  (downloadGameRequest version installPath storedToken,
   match r with
   | .rejected msg => .error ("Error: Failed to download game: " ++ msg)
   | .resolved resp _ =>
       if resp.ok then .ok ()
       else .error ("Error: Failed to download game: Error: HTTP error! status: " ++
         toString resp.status))

/-- The request issued by `GameService.launchGame`. -/
def launchGameRequest (token installPath : String) : HttpRequest :=
  { method := "POST"
    url := API_URL ++ "/api/game/launch"
    authorization := some ("Bearer " ++ token)
    body := [("installPath", installPath)] }

/-- Embeds `GameService.launchGame` (gameService.ts lines 53-70): POSTs to
`/api/game/launch` with the session token as bearer credential. Non-ok or
rejected is wrapped into a `Failed to launch game:` error. No local process
is spawned anywhere in this function. -/
def launchGame (token installPath : String) (r : FetchResult Unit) :
    HttpRequest × Except String Unit :=
  (launchGameRequest token installPath,
   match r with
   | .rejected msg => .error ("Error: Failed to launch game: " ++ msg)
   | .resolved resp _ =>
       if resp.ok then .ok ()
       else .error ("Error: Failed to launch game: Error: HTTP error! status: " ++
         toString resp.status))

/-- Embeds `GameService.getInstallPath` (gameService.ts lines 72-77): returns a
constant local default path, no backend call. -/
def getInstallPath : String := "C:\\RemakeSoF\\Game"

end GameService

namespace SettingsService

/-- The defaults returned by `SettingsService.getSettings` when loading fails. -/
def defaultSettings : LauncherSettings :=
  { serverUrl := "http://localhost:8000"
    installPath := ""
    autoUpdate := true
    rememberMe := false
    language := "en" }

/-- The request issued by `SettingsService.getSettings`. -/
def getSettingsRequest (storedToken : Option String) : HttpRequest :=
  { method := "GET"
    url := API_URL ++ "/settings"
    authorization := some ("Bearer " ++ jsShow storedToken)
    body := [] }

/-- Embeds `SettingsService.getSettings` (settingsService.ts): GETs the settings and
returns the defaults on ANY failure — this function never throws. -/
def getSettings (storedToken : Option String) (r : FetchResult LauncherSettings) :
    HttpRequest × LauncherSettings :=
  (getSettingsRequest storedToken,
   match r with
   | .rejected _ => defaultSettings
   | .resolved resp body => if resp.ok then body else defaultSettings)

/-- The request issued by `SettingsService.saveSettings`. -/
def saveSettingsRequest (s : LauncherSettings) (storedToken : Option String) :
    HttpRequest :=
  { method := "POST"
    url := API_URL ++ "/settings"
    authorization := some ("Bearer " ++ jsShow storedToken)
    body := [("serverUrl", s.serverUrl), ("installPath", s.installPath),
             ("autoUpdate", toString s.autoUpdate),
             ("rememberMe", toString s.rememberMe), ("language", s.language)] }

/-- Embeds `SettingsService.saveSettings` (settingsService.ts): POSTs the settings;
non-ok or rejected is wrapped into a `Failed to save settings:` error. -/
def saveSettings (s : LauncherSettings) (storedToken : Option String)
    (r : FetchResult Unit) : HttpRequest × Except String Unit :=
  (saveSettingsRequest s storedToken,
   match r with
   | .rejected msg => .error ("Error: Failed to save settings: " ++ msg)
   | .resolved resp _ =>
       if resp.ok then .ok ()
       else .error ("Error: Failed to save settings: Error: HTTP error! status: " ++
         toString resp.status))

end SettingsService

/-- The state held by the Zustand store `useLauncherStore`
(src/services/store.ts lines 7-31, state fields only). -/
structure LauncherState where
  isAuthenticated : Bool
  user : Option AuthResponse
  token : Option String
  gameVersion : Option GameVersion
  installedVersion : Option String
  launcherStatus : LauncherStatus
  downloadProgress : Option DownloadProgress
  errorMessage : Option String
  settings : Option LauncherSettings
  deriving DecidableEq, Repr

/-- The initial store state (store.ts lines 34-43). -/
def initialState : LauncherState :=
  { isAuthenticated := false
    user := none
    token := none
    gameVersion := none
    installedVersion := none
    launcherStatus := LauncherStatus.IDLE
    downloadProgress := none
    errorMessage := none
    settings := none }

namespace Store

/-- Embeds the store action named `initialize` in the source (store.ts lines
46-56; that name is a Lean keyword, hence the longer name here): loads the
settings and stores them. `SettingsService.getSettings` never throws (it
returns the defaults on any failure), so the surrounding catch is
unreachable. -/
def initializeLauncher (s : LauncherState) (storedToken : Option String)
    (settingsFetch : FetchResult LauncherSettings) : LauncherState × List HttpRequest :=
  let (req, st) := SettingsService.getSettings storedToken settingsFetch
  ({ s with settings := some st }, [req])

/-- Embeds the `checkGameVersion` action (store.ts lines 98-115): enters
CHECKING_VERSION, fetches the version, then resolves
`GameService.getInstallPath` into a local variable that is never used
(`installPathResult` models that resolved value; in the source it is always
the constant `GameService.getInstallPath`). On success it records the fetched
version and enters READY; on failure it records an error message and enters
ERROR. The installed version is never compared. -/
def checkGameVersion (s : LauncherState) (versionFetch : FetchResult GameVersion)
    (installPathResult : String) : LauncherState × List HttpRequest :=
  let s1 := { s with launcherStatus := LauncherStatus.CHECKING_VERSION }
  let (req, result) := GameService.checkVersion versionFetch
  match result with
  | .ok v =>
      let _installPath := installPathResult
      ({ s1 with gameVersion := some v, launcherStatus := LauncherStatus.READY }, [req])
  | .error _ =>
      ({ s1 with errorMessage := some "Failed to check game version",
                 launcherStatus := LauncherStatus.ERROR }, [req])

/-- Embeds the `login` action (store.ts lines 59-80): resets to IDLE with no
error message, authenticates, and on success sets the session fields and then
runs `checkGameVersion`. On an authentication failure the catch records
`error.toString()` and enters ERROR (the action then re-throws, which does not
change the store state). `checkGameVersion` itself never throws, so the catch
only ever sees authentication failures. -/
def login (s : LauncherState) (username password : String)
    (authFetch : FetchResult AuthResponse) (versionFetch : FetchResult GameVersion)
    (installPathResult : String) : LauncherState × List HttpRequest :=
  let s1 := { s with launcherStatus := LauncherStatus.IDLE, errorMessage := none }
  let (authReq, authResult) := AuthService.login username password authFetch
  match authResult with
  | .ok response =>
      let s2 := { s1 with isAuthenticated := true, user := some response,
                          token := some response.token }
      let (s3, reqs) := checkGameVersion s2 versionFetch installPathResult
      (s3, authReq :: reqs)
  | .error e =>
      ({ s1 with errorMessage := some e, launcherStatus := LauncherStatus.ERROR },
       [authReq])

/-- Embeds the `logout` action (store.ts lines 83-95): calls
`AuthService.logout` and, ONLY when that call resolves, clears the session and
returns to IDLE. When `AuthService.logout` throws (its fetch rejected), the
catch merely logs and the store state is left completely unchanged. -/
def logout (s : LauncherState) (storedToken : Option String)
    (logoutFetch : FetchResult Unit) : LauncherState × List HttpRequest :=
  let (req, result) := AuthService.logout storedToken logoutFetch
  match result with
  | .ok _ =>
      ({ s with isAuthenticated := false, user := none, token := none,
                launcherStatus := LauncherStatus.IDLE }, [req])
  | .error _ => (s, [req])

/-- Embeds the `downloadGame` action (store.ts lines 118-155). If either
`gameVersion` or `settings` is null it only sets the error message and
returns. Otherwise it unconditionally enters DOWNLOADING with a fresh
zeroed progress record (there is no guard against already being in
DOWNLOADING), issues the download request, applies every `onProgress`
callback invocation (`progressEvents`; the current `GameService.downloadGame`
never invokes it), and on success enters READY recording `installedVersion`
while on failure it records an error message and enters ERROR. No digest or
checksum of the delivered payload is ever computed or compared. -/
def downloadGame (s : LauncherState) (storedToken : Option String)
    (downloadFetch : FetchResult Unit) (progressEvents : List DownloadProgress) :
    LauncherState × List HttpRequest :=
  match s.gameVersion, s.settings with
  | some gameVersion, some settings =>
      let s1 := { s with
        launcherStatus := LauncherStatus.DOWNLOADING,
        downloadProgress := some { downloadedBytes := 0,
                                   totalBytes := gameVersion.fileSize,
                                   progressPercent := 0, speedMbps := 0 } }
      let (req, result) := GameService.downloadGame gameVersion.version
        settings.installPath storedToken downloadFetch
      let s2 := progressEvents.foldl
        (fun acc p => { acc with downloadProgress := some p }) s1
      match result with
      | .ok _ =>
          ({ s2 with launcherStatus := LauncherStatus.READY,
                     installedVersion := some gameVersion.version }, [req])
      | .error e =>
          ({ s2 with errorMessage := some ("Download failed: " ++ e),
                     launcherStatus := LauncherStatus.ERROR }, [req])
  | _, _ => ({ s with errorMessage := some "Version or settings not available" }, [])

/-- Embeds the `launchGame` action (store.ts lines 158-179). If the token or
the settings are missing (JS falsiness: a null or empty-string token) it only
sets the error message. Otherwise it unconditionally enters PLAYING (there is
no guard on the current status), calls `GameService.launchGame` — an HTTP POST
to the backend — and on success enters READY while on failure it records an
error message and enters ERROR. -/
def launchGame (s : LauncherState) (launchFetch : FetchResult Unit) :
    LauncherState × List HttpRequest :=
  match s.token, s.settings with
  | some token, some settings =>
      if token.isEmpty then
        ({ s with errorMessage := some "Not authenticated or settings missing" }, [])
      else
        let s1 := { s with launcherStatus := LauncherStatus.PLAYING }
        let (req, result) := GameService.launchGame token settings.installPath launchFetch
        match result with
        | .ok _ => ({ s1 with launcherStatus := LauncherStatus.READY }, [req])
        | .error e =>
            ({ s1 with errorMessage := some ("Failed to launch game: " ++ e),
                       launcherStatus := LauncherStatus.ERROR }, [req])
  | _, _ => ({ s with errorMessage := some "Not authenticated or settings missing" }, [])

/-- Embeds the `updateSettings` action (store.ts lines 182-189): saves the
settings and stores them on success; when `SettingsService.saveSettings`
throws, the catch merely logs and the store state is left unchanged. -/
def updateSettings (s : LauncherState) (newSettings : LauncherSettings)
    (storedToken : Option String) (saveFetch : FetchResult Unit) :
    LauncherState × List HttpRequest :=
  let (req, result) := SettingsService.saveSettings newSettings storedToken saveFetch
  match result with
  | .ok _ => ({ s with settings := some newSettings }, [req])
  | .error _ => (s, [req])

end Store

/-- A concrete fetched version descriptor used in the concrete scenarios. -/
def gv123 : GameVersion :=
  { version := "1.2.3"
    releaseDate := "2026-02-01"
    downloadUrl := "http://localhost:8000/files/game-1.2.3.zip"
    fileSize := 1000
    checksum := "d0c0ffee" }

/-- Concrete settings with an install path, used in the concrete scenarios. -/
def settings0 : LauncherSettings :=
  { SettingsService.defaultSettings with installPath := "C:\\RemakeSoF\\Game" }

/-- A concrete successful authentication response. -/
def adminResponse : AuthResponse :=
  { message := "ok"
    playerId := "p1"
    username := "admin"
    token := "tok123"
    selectedSkinName := none }

/-- A logged-in state with a fetched version, nothing installed, status READY. -/
def s_loggedIn : LauncherState :=
  { initialState with
    isAuthenticated := true
    user := some adminResponse
    token := some "tok123"
    gameVersion := some gv123
    settings := some settings0
    launcherStatus := LauncherStatus.READY }

/-- The logged-in state while an update is pending (status IDLE). -/
def s_idle : LauncherState :=
  { s_loggedIn with launcherStatus := LauncherStatus.IDLE }

/-- The logged-in state during an in-flight download: 500 of 1000 bytes done. -/
def s_downloading : LauncherState :=
  { s_loggedIn with
    launcherStatus := LauncherStatus.DOWNLOADING
    downloadProgress := some { downloadedBytes := 500, totalBytes := 1000,
                               progressPercent := 50, speedMbps := 1 } }

/-- Claim C1 (refuted by the code, theorem evaluates the code at the failing
input): the claim states that `downloadGame` updates the installed-version
record iff the digest of the downloaded payload equals the descriptor's
content digest, failing with a checksum-mismatch error otherwise. The code
computes no digest at all — `GameService.downloadGame` never even reads the
delivered bytes — so from `s_idle` (descriptor checksum "d0c0ffee") any
successfully delivered payload makes `downloadGame` record the installed
version and enter READY with no error, and the result is the same for every
value of the descriptor's `checksum` field. -/
theorem C1_installs_without_digest_check :
    (Store.downloadGame s_idle (some "tok123") (.resolved ⟨true, 200⟩ ()) []).1.installedVersion
        = some "1.2.3"
    ∧ (Store.downloadGame s_idle (some "tok123") (.resolved ⟨true, 200⟩ ()) []).1.launcherStatus
        = LauncherStatus.READY
    ∧ (Store.downloadGame s_idle (some "tok123") (.resolved ⟨true, 200⟩ ()) []).1.errorMessage
        = none
    ∧ s_idle.installedVersion = none
    ∧ ∀ c : String,
        (Store.downloadGame { s_idle with gameVersion := some { gv123 with checksum := c } }
            (some "tok123") (.resolved ⟨true, 200⟩ ()) []).1.installedVersion
          = some "1.2.3" :=
  ⟨rfl, rfl, rfl, rfl, fun _ => rfl⟩

/-- Claim C2 (refuted by the code, theorem evaluates the code at the failing
input): the claim states that after a successful version check the status is
Ready iff the installed version equals the fetched one, returning to Idle
otherwise. In the code a successful `checkGameVersion` sets READY
unconditionally: here nothing is installed and the fetched version is
"1.2.3", yet the status is READY, not IDLE — indeed the final status is READY
for every value of `installedVersion`. -/
theorem C2_ready_without_version_match :
    (Store.checkGameVersion s_loggedIn (.resolved ⟨true, 200⟩ gv123)
        GameService.getInstallPath).1.launcherStatus = LauncherStatus.READY
    ∧ s_loggedIn.installedVersion = none
    ∧ ∀ iv : Option String,
        (Store.checkGameVersion { s_loggedIn with installedVersion := iv }
            (.resolved ⟨true, 200⟩ gv123) GameService.getInstallPath).1.launcherStatus
          = LauncherStatus.READY :=
  ⟨rfl, rfl, fun _ => rfl⟩

/-- Claim C3 (refuted by the code, theorem evaluates the code at the failing
input): invoking `downloadGame` while the status is already DOWNLOADING is
not rejected: the action issues a fresh download request (a new transfer) and
overwrites the in-flight progress (500 of 1000 bytes) with a zeroed record —
`downloadedBytes` is reset to 0. -/
theorem C3_second_download_restarts_and_resets_progress :
    (Store.downloadGame s_downloading (some "tok123") (.rejected "in flight") []).2
        = [GameService.downloadGameRequest "1.2.3" "C:\\RemakeSoF\\Game" (some "tok123")]
    ∧ (Store.downloadGame s_downloading (some "tok123") (.rejected "in flight") []).1.downloadProgress
        = some { downloadedBytes := 0, totalBytes := 1000, progressPercent := 0, speedMbps := 0 }
    ∧ s_downloading.launcherStatus = LauncherStatus.DOWNLOADING
    ∧ s_downloading.downloadProgress
        = some { downloadedBytes := 500, totalBytes := 1000, progressPercent := 50, speedMbps := 1 } :=
  ⟨rfl, rfl, rfl, rfl⟩

/-- Claim C4: `login` composes authentication with the version check: on a
successful authentication it sets the session (isAuthenticated, user, token)
and then issues the version-check request; on an authentication failure (a
401 response here) the version-check request is never issued, the status
becomes ERROR with the auth error as message and, starting from an
unauthenticated state, no session is set. -/
theorem C4_login_composes_auth_and_version_check (s : LauncherState)
    (u p ip : String) (r junk : AuthResponse) (versionFetch : FetchResult GameVersion)
    (h : s.isAuthenticated = false) :
    ((Store.login s u p (.resolved ⟨true, 200⟩ r) versionFetch ip).1.isAuthenticated = true
      ∧ (Store.login s u p (.resolved ⟨true, 200⟩ r) versionFetch ip).1.user = some r
      ∧ (Store.login s u p (.resolved ⟨true, 200⟩ r) versionFetch ip).1.token = some r.token
      ∧ (Store.login s u p (.resolved ⟨true, 200⟩ r) versionFetch ip).2
          = [AuthService.loginRequest u p, GameService.checkVersionRequest])
    ∧ ((Store.login s u p (.resolved ⟨false, 401⟩ junk) versionFetch ip).1.isAuthenticated = false
      ∧ (Store.login s u p (.resolved ⟨false, 401⟩ junk) versionFetch ip).1.user = s.user
      ∧ (Store.login s u p (.resolved ⟨false, 401⟩ junk) versionFetch ip).1.token = s.token
      ∧ (Store.login s u p (.resolved ⟨false, 401⟩ junk) versionFetch ip).1.launcherStatus
          = LauncherStatus.ERROR
      ∧ (Store.login s u p (.resolved ⟨false, 401⟩ junk) versionFetch ip).1.errorMessage
          = some "Error: Login failed: Error: HTTP error! status: 401"
      ∧ (Store.login s u p (.resolved ⟨false, 401⟩ junk) versionFetch ip).2
          = [AuthService.loginRequest u p]) := by
  constructor
  · rcases versionFetch with m | ⟨⟨ok, st⟩, b⟩
    · exact ⟨rfl, rfl, rfl, rfl⟩
    · cases ok
      · exact ⟨rfl, rfl, rfl, rfl⟩
      · exact ⟨rfl, rfl, rfl, rfl⟩
  · exact ⟨h, rfl, rfl, rfl, rfl, rfl⟩

/-- Witness for C4 at the spec's end-to-end inputs: the unauthenticated
initial state with the `admin` credentials. -/
theorem C4_login_composes_auth_and_version_check_witness :
    ((Store.login initialState "admin" "wrongpass" (.resolved ⟨true, 200⟩ adminResponse)
          (.resolved ⟨true, 200⟩ gv123) GameService.getInstallPath).1.isAuthenticated = true
      ∧ (Store.login initialState "admin" "wrongpass" (.resolved ⟨true, 200⟩ adminResponse)
          (.resolved ⟨true, 200⟩ gv123) GameService.getInstallPath).1.user = some adminResponse
      ∧ (Store.login initialState "admin" "wrongpass" (.resolved ⟨true, 200⟩ adminResponse)
          (.resolved ⟨true, 200⟩ gv123) GameService.getInstallPath).1.token = some adminResponse.token
      ∧ (Store.login initialState "admin" "wrongpass" (.resolved ⟨true, 200⟩ adminResponse)
          (.resolved ⟨true, 200⟩ gv123) GameService.getInstallPath).2
          = [AuthService.loginRequest "admin" "wrongpass", GameService.checkVersionRequest])
    ∧ ((Store.login initialState "admin" "wrongpass" (.resolved ⟨false, 401⟩ adminResponse)
          (.resolved ⟨true, 200⟩ gv123) GameService.getInstallPath).1.isAuthenticated = false
      ∧ (Store.login initialState "admin" "wrongpass" (.resolved ⟨false, 401⟩ adminResponse)
          (.resolved ⟨true, 200⟩ gv123) GameService.getInstallPath).1.user = initialState.user
      ∧ (Store.login initialState "admin" "wrongpass" (.resolved ⟨false, 401⟩ adminResponse)
          (.resolved ⟨true, 200⟩ gv123) GameService.getInstallPath).1.token = initialState.token
      ∧ (Store.login initialState "admin" "wrongpass" (.resolved ⟨false, 401⟩ adminResponse)
          (.resolved ⟨true, 200⟩ gv123) GameService.getInstallPath).1.launcherStatus
          = LauncherStatus.ERROR
      ∧ (Store.login initialState "admin" "wrongpass" (.resolved ⟨false, 401⟩ adminResponse)
          (.resolved ⟨true, 200⟩ gv123) GameService.getInstallPath).1.errorMessage
          = some "Error: Login failed: Error: HTTP error! status: 401"
      ∧ (Store.login initialState "admin" "wrongpass" (.resolved ⟨false, 401⟩ adminResponse)
          (.resolved ⟨true, 200⟩ gv123) GameService.getInstallPath).2
          = [AuthService.loginRequest "admin" "wrongpass"]) :=
  C4_login_composes_auth_and_version_check initialState "admin" "wrongpass"
    GameService.getInstallPath adminResponse adminResponse
    (.resolved ⟨true, 200⟩ gv123) rfl

/-- Claim C5 (refuted by the code, theorem evaluates the code at the failing
input): when the logout request itself fails (the fetch rejects, so
`AuthService.logout` throws), the `logout` action leaves the store state
completely unchanged — the session is NOT cleared and the status does NOT
return to IDLE, because the clearing `set` call sits after the awaited
request inside the `try` block. -/
theorem C5_logout_failure_blocks_session_clear :
    (Store.logout s_loggedIn (some "tok123") (.rejected "TypeError: Failed to fetch")).1
        = s_loggedIn
    ∧ s_loggedIn.isAuthenticated = true
    ∧ s_loggedIn.token = some "tok123"
    ∧ s_loggedIn.launcherStatus = LauncherStatus.READY :=
  ⟨rfl, rfl, rfl, rfl⟩

/-- Counterexample to claim C6: a failure in `updateSettings` (the
settings-save fetch rejects) is silently dropped: the state is completely
unchanged — no ERROR status, no error message — so logout is not the sole
exception to the error-conversion policy. -/
theorem C6_counterexample_updateSettings_drops_failure :
    (Store.updateSettings s_loggedIn settings0 (some "tok123")
        (.rejected "TypeError: Failed to fetch")).1 = s_loggedIn
    ∧ s_loggedIn.errorMessage = none
    ∧ s_loggedIn.launcherStatus ≠ LauncherStatus.ERROR :=
  ⟨rfl, rfl, by decide⟩

/-- Claim C6 as amended: failures raised during `login`, `checkGameVersion`,
`downloadGame` and `launchGame` are caught at the store boundary and
converted into the ERROR status with an error message, while failures during
`logout` and `updateSettings` are logged only and leave the state unchanged;
the store action that loads the settings cannot fail, since
`SettingsService.getSettings` returns defaults on any error, and it preserves
status and error message. -/
theorem C6_error_conversion_policy (s : LauncherState) (u p m ip : String)
    (versionFetch : FetchResult GameVersion) (storedToken : Option String)
    (ns : LauncherSettings) (sf : FetchResult LauncherSettings)
    (gv : GameVersion) (st : LauncherSettings) (t : String)
    (hgv : s.gameVersion = some gv) (hst : s.settings = some st)
    (htok : s.token = some t) (ht : t.isEmpty = false) :
    ((Store.login s u p (.rejected m) versionFetch ip).1.launcherStatus = LauncherStatus.ERROR
      ∧ (Store.login s u p (.rejected m) versionFetch ip).1.errorMessage
          = some ("Error: Login failed: " ++ m))
    ∧ ((Store.checkGameVersion s (.rejected m) ip).1.launcherStatus = LauncherStatus.ERROR
      ∧ (Store.checkGameVersion s (.rejected m) ip).1.errorMessage
          = some "Failed to check game version")
    ∧ ((Store.downloadGame s storedToken (.rejected m) []).1.launcherStatus
          = LauncherStatus.ERROR
      ∧ (Store.downloadGame s storedToken (.rejected m) []).1.errorMessage
          = some ("Download failed: " ++ ("Error: Failed to download game: " ++ m)))
    ∧ ((Store.launchGame s (.rejected m)).1.launcherStatus = LauncherStatus.ERROR
      ∧ (Store.launchGame s (.rejected m)).1.errorMessage
          = some ("Failed to launch game: " ++ ("Error: Failed to launch game: " ++ m)))
    ∧ (Store.logout s storedToken (.rejected m)).1 = s
    ∧ (Store.updateSettings s ns storedToken (.rejected m)).1 = s
    ∧ ((Store.initializeLauncher s storedToken sf).1.launcherStatus = s.launcherStatus
      ∧ (Store.initializeLauncher s storedToken sf).1.errorMessage = s.errorMessage) := by
  refine ⟨⟨rfl, rfl⟩, ⟨rfl, rfl⟩, ?_, ?_, rfl, rfl, ⟨rfl, rfl⟩⟩
  · constructor <;> simp [Store.downloadGame, hgv, hst, GameService.downloadGame]
  · constructor <;> simp [Store.launchGame, htok, hst, ht, GameService.launchGame]

/-- Witness for C6 as amended, at the logged-in state with a rejecting fetch. -/
theorem C6_error_conversion_policy_witness :
    ((Store.login s_loggedIn "admin" "admin123" (.rejected "E") (.rejected "E")
          GameService.getInstallPath).1.launcherStatus = LauncherStatus.ERROR
      ∧ (Store.login s_loggedIn "admin" "admin123" (.rejected "E") (.rejected "E")
          GameService.getInstallPath).1.errorMessage
          = some ("Error: Login failed: " ++ "E"))
    ∧ ((Store.checkGameVersion s_loggedIn (.rejected "E")
          GameService.getInstallPath).1.launcherStatus = LauncherStatus.ERROR
      ∧ (Store.checkGameVersion s_loggedIn (.rejected "E")
          GameService.getInstallPath).1.errorMessage
          = some "Failed to check game version")
    ∧ ((Store.downloadGame s_loggedIn (some "tok123") (.rejected "E") []).1.launcherStatus
          = LauncherStatus.ERROR
      ∧ (Store.downloadGame s_loggedIn (some "tok123") (.rejected "E") []).1.errorMessage
          = some ("Download failed: " ++ ("Error: Failed to download game: " ++ "E")))
    ∧ ((Store.launchGame s_loggedIn (.rejected "E")).1.launcherStatus = LauncherStatus.ERROR
      ∧ (Store.launchGame s_loggedIn (.rejected "E")).1.errorMessage
          = some ("Failed to launch game: " ++ ("Error: Failed to launch game: " ++ "E")))
    ∧ (Store.logout s_loggedIn (some "tok123") (.rejected "E")).1 = s_loggedIn
    ∧ (Store.updateSettings s_loggedIn settings0 (some "tok123") (.rejected "E")).1 = s_loggedIn
    ∧ ((Store.initializeLauncher s_loggedIn (some "tok123") (.rejected "E")).1.launcherStatus
          = s_loggedIn.launcherStatus
      ∧ (Store.initializeLauncher s_loggedIn (some "tok123") (.rejected "E")).1.errorMessage
          = s_loggedIn.errorMessage) :=
  C6_error_conversion_policy s_loggedIn "admin" "admin123" "E" GameService.getInstallPath
    (.rejected "E") (some "tok123") settings0 (.rejected "E") gv123 settings0 "tok123"
    rfl rfl rfl rfl

/-- Claim C7 (refuted by the code, theorem evaluates the code at the failing
input): invoking `launchGame` while the status is DOWNLOADING is not a no-op:
the action dispatches the launch request and moves the status through PLAYING
to READY (the source has no guard on the current status). -/
theorem C7_launch_during_download_not_a_noop :
    (Store.launchGame s_downloading (.resolved ⟨true, 200⟩ ())).1.launcherStatus
        = LauncherStatus.READY
    ∧ (Store.launchGame s_downloading (.resolved ⟨true, 200⟩ ())).2
        = [GameService.launchGameRequest "tok123" "C:\\RemakeSoF\\Game"]
    ∧ s_downloading.launcherStatus = LauncherStatus.DOWNLOADING :=
  ⟨rfl, rfl, rfl⟩

/-- Counterexample to claim C8: from the logged-in state, `launchGame` DOES
issue a POST request to `http://localhost:8000/api/game/launch` — it is the
action's only effect, and no local process start exists in this code. -/
theorem C8_counterexample_launch_posts_to_backend :
    (Store.launchGame s_loggedIn (.resolved ⟨true, 200⟩ ())).2
      = [{ method := "POST"
           url := "http://localhost:8000/api/game/launch"
           authorization := some "Bearer tok123"
           body := [("installPath", "C:\\RemakeSoF\\Game")] }] := rfl

/-- Claim C8 as amended: launching the game issues exactly one backend
request, a POST to API_URL ++ "/api/game/launch" carrying the session token
as a Bearer authorization header and the install path in the body; the
launcher code contains no local process-start operation. -/
theorem C8_launch_issues_backend_post (s : LauncherState) (t : String)
    (st : LauncherSettings) (launchFetch : FetchResult Unit)
    (htok : s.token = some t) (ht : t.isEmpty = false) (hst : s.settings = some st) :
    (Store.launchGame s launchFetch).2
      = [{ method := "POST"
           url := API_URL ++ "/api/game/launch"
           authorization := some ("Bearer " ++ t)
           body := [("installPath", st.installPath)] }] := by
  rcases launchFetch with m | ⟨⟨ok, code⟩, b⟩
  · simp [Store.launchGame, htok, hst, ht, GameService.launchGame,
      GameService.launchGameRequest]
  · cases ok <;>
      simp [Store.launchGame, htok, hst, ht, GameService.launchGame,
        GameService.launchGameRequest]

/-- Witness for C8 as amended, at the logged-in state. -/
theorem C8_launch_issues_backend_post_witness :
    (Store.launchGame s_loggedIn (.resolved ⟨true, 200⟩ ())).2
      = [{ method := "POST"
           url := API_URL ++ "/api/game/launch"
           authorization := some ("Bearer " ++ "tok123")
           body := [("installPath", settings0.installPath)] }] :=
  C8_launch_issues_backend_post s_loggedIn "tok123" settings0
    (.resolved ⟨true, 200⟩ ()) rfl rfl rfl

/-- Claim C9: when `gameVersion` or `settings` is missing, `downloadGame`
only sets the error message "Version or settings not available" and issues no
request; the status, the installed version and the download progress are all
unchanged (in particular the action enters neither DOWNLOADING nor ERROR). -/
theorem C9_download_guard_only_sets_message (s : LauncherState)
    (storedToken : Option String) (downloadFetch : FetchResult Unit)
    (progressEvents : List DownloadProgress)
    (h : s.gameVersion = none ∨ s.settings = none) :
    Store.downloadGame s storedToken downloadFetch progressEvents
      = ({ s with errorMessage := some "Version or settings not available" }, [])
    ∧ (Store.downloadGame s storedToken downloadFetch progressEvents).1.launcherStatus
        = s.launcherStatus
    ∧ (Store.downloadGame s storedToken downloadFetch progressEvents).1.installedVersion
        = s.installedVersion
    ∧ (Store.downloadGame s storedToken downloadFetch progressEvents).1.downloadProgress
        = s.downloadProgress := by
  have hmain : Store.downloadGame s storedToken downloadFetch progressEvents
      = ({ s with errorMessage := some "Version or settings not available" }, []) := by
    rcases h with h | h
    · simp [Store.downloadGame, h]
    · cases hg : s.gameVersion with
      | none => simp [Store.downloadGame, hg]
      | some gv => simp [Store.downloadGame, hg, h]
  exact ⟨hmain, by rw [hmain], by rw [hmain], by rw [hmain]⟩

/-- Witness for C9 at the initial state, where nothing is available. -/
theorem C9_download_guard_only_sets_message_witness :
    (initialState.gameVersion = none ∨ initialState.settings = none)
    ∧ (Store.downloadGame initialState none (.rejected "x") []
        = ({ initialState with errorMessage := some "Version or settings not available" }, [])
      ∧ (Store.downloadGame initialState none (.rejected "x") []).1.launcherStatus
          = initialState.launcherStatus
      ∧ (Store.downloadGame initialState none (.rejected "x") []).1.installedVersion
          = initialState.installedVersion
      ∧ (Store.downloadGame initialState none (.rejected "x") []).1.downloadProgress
          = initialState.downloadProgress) :=
  ⟨Or.inl rfl,
   C9_download_guard_only_sets_message initialState none (.rejected "x") [] (Or.inl rfl)⟩

/-- Claim C10: the result of `checkGameVersion` — the whole store state and
the issued requests — is independent of the value resolved for
`GameService.getInstallPath`: the fetched install path is discarded. -/
theorem C10_checkGameVersion_ignores_installPath (s : LauncherState)
    (versionFetch : FetchResult GameVersion) (p1 p2 : String) :
    Store.checkGameVersion s versionFetch p1 = Store.checkGameVersion s versionFetch p2 :=
  rfl
